import Mathlib

/-!
# Verification of the fems_exporter core (src/main.rs)

Shallow embedding of the Modbus-to-Prometheus exporter:
* `ModbusType`, `ModbusType.register_count` — the value-type enum;
* `decode_u16`, `decode_f32`, `decode_f64` — the word decoders (a Rust
  `unwrap` panic is modelled as `Option.none`; an IEEE float value is
  modelled by its bit pattern as a `Nat`);
* `MODBUS_METRICS` — the static 32-entry register catalog;
* `acquire` — the connection-pool lookup/connect/insert step
  (the `contexts.entry(host)` match in `metrics`), with the outcome of
  `tcp::connect` passed in as an oracle value;
* `scrapeLoop` / `metrics` — the scrape pipeline, with register reads
  passed in as an oracle function and the Rust standard library's float
  `Display` passed in as formatting functions `fmt32`/`fmt64`.
-/

set_option autoImplicit false
set_option maxRecDepth 8000

/-- The `ModbusType` enum of src/main.rs (`U16`, `F32`, `F64`). -/
inductive ModbusType where
  | U16
  | F32
  | F64
deriving DecidableEq, Repr

/-- `ModbusType::register_count`: number of 16-bit input registers per value. -/
def ModbusType.register_count : ModbusType → Nat
  | .U16 => 1
  | .F32 => 2
  | .F64 => 4

/-- `u16::to_be_bytes`: the two big-endian bytes of a 16-bit word
(the `% 256` on the high byte makes the `u8` truncation explicit). -/
def u16_be_bytes (w : Nat) : List Nat :=
  [w / 256 % 256, w % 256]

/-- Big-endian byte list to the number it denotes
(`f32::from_be_bytes` / `f64::from_be_bytes` at the bit level). -/
def be_bytes_to_nat (bs : List Nat) : Nat :=
  bs.foldl (fun a b => a * 256 + b) 0

/-- `decode_u16`: `*data.first().unwrap()` — the first word, panicking
(`none`) only on an empty slice. -/
def decode_u16 (data : List Nat) : Option Nat :=
  data.head?

/-- `decode_f32`: flat-map each word to its big-endian bytes, require
exactly 4 bytes (`try_into().unwrap()` panics otherwise), and interpret
them big-endian; the resulting 32-bit pattern represents the `f32`. -/
def decode_f32 (data : List Nat) : Option Nat :=
  let bytes := data.flatMap u16_be_bytes
  if bytes.length = 4 then some (be_bytes_to_nat bytes) else none

/-- `decode_f64`: as `decode_f32` but with 8 bytes into a 64-bit pattern. -/
def decode_f64 (data : List Nat) : Option Nat :=
  let bytes := data.flatMap u16_be_bytes
  if bytes.length = 8 then some (be_bytes_to_nat bytes) else none

/-- One catalog entry: the `(&str, &[(&str, &str)], u16, ModbusType)`
tuples of `MODBUS_METRICS`, with named fields. -/
structure MetricDesc where
  name : String
  labels : List (String × String)
  address : Nat
  ty : ModbusType
deriving DecidableEq, Repr

/-- The static `MODBUS_METRICS` catalog (32 entries, in declared order). -/
def MODBUS_METRICS : List MetricDesc :=
  [ ⟨"fems_state", [], 222, .U16⟩,
    ⟨"fems_grid_mode", [], 417, .U16⟩,
    ⟨"fems_ess_soc_percent", [], 302, .U16⟩,
    ⟨"fems_ess_power_watts_total", [], 303, .F32⟩,
    ⟨"fems_ess_power_watts", [("phase", "l1")], 391, .F32⟩,
    ⟨"fems_ess_power_watts", [("phase", "l2")], 393, .F32⟩,
    ⟨"fems_ess_power_watts", [("phase", "l3")], 395, .F32⟩,
    ⟨"fems_ess_discharge_power_watts_total", [], 415, .F32⟩,
    ⟨"fems_ess_reactive_power_voltampere", [], 309, .F32⟩,
    ⟨"fems_grid_power_watts_total", [], 315, .F32⟩,
    ⟨"fems_grid_power_watts", [("phase", "l1")], 397, .F32⟩,
    ⟨"fems_grid_power_watts", [("phase", "l2")], 399, .F32⟩,
    ⟨"fems_grid_power_watts", [("phase", "l3")], 401, .F32⟩,
    ⟨"fems_production_power_watts_total", [], 327, .F32⟩,
    ⟨"fems_production_power_watts", [("type", "dc")], 339, .F32⟩,
    ⟨"fems_production_power_watts", [("type", "ac"), ("phase", "l1")], 403, .F32⟩,
    ⟨"fems_production_power_watts", [("type", "ac"), ("phase", "l2")], 405, .F32⟩,
    ⟨"fems_production_power_watts", [("type", "ac"), ("phase", "l3")], 407, .F32⟩,
    ⟨"fems_consumption_power_watts_total", [], 343, .F32⟩,
    ⟨"fems_consumption_power_watts", [("phase", "l3")], 409, .F32⟩,
    ⟨"fems_consumption_power_watts", [("phase", "l3")], 411, .F32⟩,
    ⟨"fems_consumption_power_watts", [("phase", "l3")], 413, .F32⟩,
    ⟨"fems_ess_charge_energy_watthours", [], 351, .F64⟩,
    ⟨"fems_ess_discharge_energy_watthours", [], 355, .F64⟩,
    ⟨"fems_ess_dc_charge_energy_watthours", [], 383, .F64⟩,
    ⟨"fems_ess_dc_discharge_energy_watthours", [], 387, .F64⟩,
    ⟨"fems_grid_buy_energy_watthours", [], 359, .F64⟩,
    ⟨"fems_grid_sell_energy_watthours", [], 363, .F64⟩,
    ⟨"fems_production_energy_watthours_total", [], 367, .F64⟩,
    ⟨"fems_production_energy_watthours", [("type", "ac")], 371, .F64⟩,
    ⟨"fems_production_energy_watthours", [("type", "dc")], 375, .F64⟩,
    ⟨"fems_consumption_energy_watthours", [], 379, .F64⟩ ]

/-- A live Modbus session (`tokio_modbus::client::Context`): an opaque
connection identity plus the configured slave unit. -/
structure Session where
  conn : Nat
  slave : Nat
deriving DecidableEq, Repr

/-- `ctx.set_slave(Slave(u))`. -/
def set_slave (s : Session) (u : Nat) : Session :=
  { s with slave := u }

/-- Lookup in the pool map (`HashMap<SocketAddr, Context>` modelled as an
association list with unique keys). -/
def poolLookup (p : List (String × Session)) (a : String) : Option Session :=
  match p with
  | [] => none
  | (k, s) :: rest => if k = a then some s else poolLookup rest a

/-- The `contexts.entry(host)` match of `metrics`: reuse an existing
session, otherwise consult the `tcp::connect` outcome `c`; on success
configure slave unit 1 and insert, on failure report the address and
cause and leave the pool unchanged. Returns the session to use and the
updated pool. -/
def acquire (p : List (String × Session)) (a : String)
    (c : Except String Session) :
    Except String (Session × List (String × Session)) :=
  match poolLookup p a with
  | some s => .ok (s, p)
  | none =>
    match c with
    | .error e =>
        .error ("unable to connect to fems modbus at " ++ a ++ ": " ++ e)
    | .ok ctx =>
        let ctx := set_slave ctx 1
        .ok (ctx, p ++ [(a, ctx)])

/-- Rust `Vec<String>::join(sep)`. -/
def joinSep (sep : String) : List String → String
  | [] => ""
  | [x] => x
  | x :: y :: rest => x ++ sep ++ joinSep sep (y :: rest)

/-- The label segment: each pair rendered as `key = "value"`, joined by
`", "` (the `format!("\x7bl\x7d = \"\x7bv\x7d\"")` map plus `join(", ")`). -/
def renderLabels (labels : List (String × String)) : String :=
  joinSep ", " (labels.map (fun lv => lv.1 ++ " = \"" ++ lv.2 ++ "\""))

/-- One exposition line: the descriptor's own labels, then the pushed
`("fems_id", fems_id)` pair, inside braces, then space, value, newline. -/
def renderLine (name : String) (labels : List (String × String))
    (fems_id value : String) : String :=
  name ++ "\x7b" ++ renderLabels (labels ++ [("fems_id", fems_id)]) ++
    "\x7d " ++ value ++ "\n"

/-- The `match modbus_type` value-to-string step of the loop body.
`fmt32`/`fmt64` stand for the Rust standard library's `f32`/`f64`
`Display` on the decoded bit pattern; `u16` `Display` is plain decimal
digits. `none` models a decoder panic. -/
def decodeValue (fmt32 fmt64 : Nat → String) :
    ModbusType → List Nat → Option String
  | .U16, data => (decode_u16 data).map toString
  | .F32, data => (decode_f32 data).map fmt32
  | .F64, data => (decode_f64 data).map fmt64

/-- The `for` loop of `metrics`: read (via the oracle `reads`, modelling
`ctx.read_input_registers`), decode, format, accumulate into `report`;
on a read error return the error text at once, discarding `report`.
The outer `Option` is `none` exactly when a decoder panics. -/
def scrapeLoop (fmt32 fmt64 : Nat → String)
    (reads : Nat → Nat → Except String (List Nat)) (fems_id : String) :
    List MetricDesc → String → Option (Except String String)
  | [], report => some (.ok report)
  | d :: rest, report =>
    match reads d.address d.ty.register_count with
    | .error e =>
        some (.error ("unable to read modbus input register: " ++ e))
    | .ok data =>
      match decodeValue fmt32 fmt64 d.ty data with
      | none => none
      | some value =>
          scrapeLoop fmt32 fmt64 reads fems_id rest
            (report ++ renderLine d.name d.labels fems_id value)

/-- The `metrics` handler: acquire a session for `host` (with connect
outcome `c`), then run the scrape loop over the catalog. Returns the
result together with the pool left behind by the request; `none` models
a decoder panic. -/
def metrics (fmt32 fmt64 : Nat → String) (c : Except String Session)
    (reads : Nat → Nat → Except String (List Nat))
    (pool : List (String × Session)) (host fems_id : String) :
    Option (Except String String × List (String × Session)) :=
  match acquire pool host c with
  | .error e => some (.error e, pool)
  | .ok (_, pool') =>
    (scrapeLoop fmt32 fmt64 reads fems_id MODBUS_METRICS "").map
      (fun r => (r, pool'))

/-- The value of a 32-bit pattern read as an IEEE-754 binary32 number,
as an exact rational (`none` for the non-finite exponent 255): the
meaning of the `f32` that `f32::from_be_bytes` produces. A normal
number is `±(2^23 + mantissa) · 2^(exponent - 150)` and a subnormal is
`±mantissa · 2^(-149)`, written over the common denominators `2^150`
and `2^149`. -/
def ieee_binary32_val (bits : Nat) : Option ℚ :=
  let s : Nat := bits / 2 ^ 31 % 2
  let e : Nat := bits / 2 ^ 23 % 2 ^ 8
  let m : Nat := bits % 2 ^ 23
  if e = 255 then none
  else if e = 0 then
    some (mkRat ((if s = 1 then -1 else 1) * m) (2 ^ 149))
  else
    some (mkRat ((if s = 1 then -1 else 1) * ((2 ^ 23 + m) * 2 ^ e)) (2 ^ 150))

/-- Modelled from the spec: the decoded-value rendering (Rust standard
library `f32` `Display`, outside this repository) — "integers render
without a decimal point, floats use standard shortest-round-trip
formatting". Faithful for finite values that are mathematical integers,
the only values this development renders; other rationals fall back to
their default text and the non-finite case to a placeholder. -/
def format_f32 (bits : Nat) : String :=
  match ieee_binary32_val bits with
  | some q => if q.den = 1 then toString q.num else toString q
  | none => "NaN"

/-- The big-endian bytes of a 32-bit pattern
(what `f32::to_be_bytes` yields on the value with this pattern). -/
def nat_be_bytes32 (bits : Nat) : List Nat :=
  [bits / 2 ^ 24 % 256, bits / 2 ^ 16 % 256, bits / 2 ^ 8 % 256, bits % 256]

/-- The big-endian bytes of a 64-bit pattern
(what `f64::to_be_bytes` yields on the value with this pattern). -/
def nat_be_bytes64 (bits : Nat) : List Nat :=
  [bits / 2 ^ 56 % 256, bits / 2 ^ 48 % 256, bits / 2 ^ 40 % 256,
   bits / 2 ^ 32 % 256, bits / 2 ^ 24 % 256, bits / 2 ^ 16 % 256,
   bits / 2 ^ 8 % 256, bits % 256]

/-- Packing a big-endian byte stream into big-endian 16-bit words: the
word-by-word encoding whose inverse the decoders are claimed to be. -/
def bytes_to_words : List Nat → List Nat
  | b0 :: b1 :: rest => (b0 * 256 + b1) :: bytes_to_words rest
  | _ => []

/-- The value string a successful scrape renders for descriptor `d`
(meaningful when its read succeeded and decoding does not panic). -/
def lineValue (fmt32 fmt64 : Nat → String)
    (reads : Nat → Nat → Except String (List Nat)) (d : MetricDesc) :
    String :=
  match reads d.address d.ty.register_count with
  | .error _ => ""
  | .ok data => (decodeValue fmt32 fmt64 d.ty data).getD ""

/-- Report accumulated by a fully successful scrape. -/
def reportOf (fmt32 fmt64 : Nat → String)
    (reads : Nat → Nat → Except String (List Nat)) (fems_id : String) :
    List MetricDesc → String
  | [] => ""
  | d :: rest =>
      renderLine d.name d.labels fems_id (lineValue fmt32 fmt64 reads d) ++
        reportOf fmt32 fmt64 reads fems_id rest

theorem join_cons (a : String) (l : List String) :
    String.join (a :: l) = a ++ String.join l := by
  rw [String.join_eq, String.join_eq]; rfl

theorem reportOf_eq_join (fmt32 fmt64 : Nat → String)
    (reads : Nat → Nat → Except String (List Nat)) (fems_id : String) :
    ∀ ds : List MetricDesc,
      reportOf fmt32 fmt64 reads fems_id ds =
        String.join (ds.map (fun d =>
          renderLine d.name d.labels fems_id (lineValue fmt32 fmt64 reads d)))
  | [] => rfl
  | d :: rest => by
      rw [List.map_cons, join_cons, reportOf,
        reportOf_eq_join fmt32 fmt64 reads fems_id rest]

theorem flatMap_u16_length : ∀ ws : List Nat,
    (ws.flatMap u16_be_bytes).length = 2 * ws.length := by
  intro ws
  induction ws with
  | nil => rfl
  | cons w rest ih =>
      rw [List.flatMap_cons, List.length_append, ih]
      simp [u16_be_bytes]; omega

theorem decodeValue_of_length (fmt32 fmt64 : Nat → String) (ty : ModbusType)
    (data : List Nat) (h : data.length = ty.register_count) :
    ∃ v, decodeValue fmt32 fmt64 ty data = some v := by
  cases ty with
  | U16 =>
      cases data with
      | nil => simp [ModbusType.register_count] at h
      | cons w rest => exact ⟨toString w, rfl⟩
  | F32 =>
      refine ⟨fmt32 (be_bytes_to_nat (data.flatMap u16_be_bytes)), ?_⟩
      simp only [decodeValue, decode_f32]
      rw [if_pos]
      · rfl
      · rw [flatMap_u16_length, h]; rfl
  | F64 =>
      refine ⟨fmt64 (be_bytes_to_nat (data.flatMap u16_be_bytes)), ?_⟩
      simp only [decodeValue, decode_f64]
      rw [if_pos]
      · rfl
      · rw [flatMap_u16_length, h]; rfl

theorem scrapeLoop_success (fmt32 fmt64 : Nat → String)
    (reads : Nat → Nat → Except String (List Nat)) (fid : String) :
    ∀ (ds : List MetricDesc) (acc : String),
      (∀ d ∈ ds, ∃ ws, reads d.address d.ty.register_count = .ok ws ∧
        ws.length = d.ty.register_count) →
      scrapeLoop fmt32 fmt64 reads fid ds acc =
        some (.ok (acc ++ reportOf fmt32 fmt64 reads fid ds))
  | [], acc, _ => by simp [scrapeLoop, reportOf]
  | d :: rest, acc, h => by
      obtain ⟨ws, hok, hlen⟩ := h d (List.mem_cons_self _ _)
      obtain ⟨v, hv⟩ := decodeValue_of_length fmt32 fmt64 d.ty ws hlen
      have hrest := scrapeLoop_success fmt32 fmt64 reads fid rest
        (acc ++ renderLine d.name d.labels fid v)
        (fun d' hd' => h d' (List.mem_cons_of_mem _ hd'))
      have hlv : lineValue fmt32 fmt64 reads d = v := by
        simp [lineValue, hok, hv]
      simp [scrapeLoop, hok, hv, hrest, reportOf, hlv, String.append_assoc]

theorem scrapeLoop_error (fmt32 fmt64 : Nat → String)
    (reads : Nat → Nat → Except String (List Nat)) (fid : String)
    (d : MetricDesc) (post : List MetricDesc) (e : String)
    (herr : reads d.address d.ty.register_count = .error e) :
    ∀ (pre : List MetricDesc) (acc : String),
      (∀ d' ∈ pre, ∃ ws, reads d'.address d'.ty.register_count = .ok ws ∧
        ws.length = d'.ty.register_count) →
      scrapeLoop fmt32 fmt64 reads fid (pre ++ d :: post) acc =
        some (.error ("unable to read modbus input register: " ++ e))
  | [], acc, _ => by simp [scrapeLoop, herr]
  | d' :: pre, acc, h => by
      obtain ⟨ws, hok, hlen⟩ := h d' (List.mem_cons_self _ _)
      obtain ⟨v, hv⟩ := decodeValue_of_length fmt32 fmt64 d'.ty ws hlen
      have hrest := scrapeLoop_error fmt32 fmt64 reads fid d post e herr pre
        (acc ++ renderLine d'.name d'.labels fid v)
        (fun x hx => h x (List.mem_cons_of_mem _ hx))
      simp [scrapeLoop, hok, hv, hrest]

theorem scrapeLoop_ne_none (fmt32 fmt64 : Nat → String)
    (reads : Nat → Nat → Except String (List Nat)) (fid : String)
    (hlen : ∀ a n ws, reads a n = .ok ws → ws.length = n) :
    ∀ (ds : List MetricDesc) (acc : String),
      scrapeLoop fmt32 fmt64 reads fid ds acc ≠ none
  | [], acc => by simp [scrapeLoop]
  | d :: rest, acc => by
      cases hr : reads d.address d.ty.register_count with
      | error e => simp [scrapeLoop, hr]
      | ok ws =>
          obtain ⟨v, hv⟩ :=
            decodeValue_of_length fmt32 fmt64 d.ty ws (hlen _ _ _ hr)
          have := scrapeLoop_ne_none fmt32 fmt64 reads fid hlen rest
            (acc ++ renderLine d.name d.labels fid v)
          simp [scrapeLoop, hr, hv, this]

theorem poolLookup_append_self :
    ∀ (p : List (String × Session)) (a : String) (s : Session),
      poolLookup p a = none → poolLookup (p ++ [(a, s)]) a = some s
  | [], a, s, _ => by simp [poolLookup]
  | (k, v) :: rest, a, s, h => by
      by_cases hk : k = a
      · simp [poolLookup, hk] at h
      · simp only [poolLookup, hk, if_neg, List.cons_append] at h ⊢
        exact poolLookup_append_self rest a s h

theorem acquire_ok_lookup (p : List (String × Session)) (a : String)
    (c : Except String Session) (s : Session) (p₁ : List (String × Session))
    (h : acquire p a c = .ok (s, p₁)) :
    poolLookup p₁ a = some s ∧ ∀ c', acquire p₁ a c' = .ok (s, p₁) := by
  unfold acquire at h
  cases hl : poolLookup p a with
  | some s' =>
      rw [hl] at h
      injection h with h'
      injection h' with h1 h2
      subst h1; subst h2
      exact ⟨hl, fun c' => by simp [acquire, hl]⟩
  | none =>
      rw [hl] at h
      cases c with
      | error e => simp at h
      | ok ctx =>
          simp only [Except.ok.injEq, Prod.mk.injEq] at h
          obtain ⟨h1, h2⟩ := h
          subst h1; subst h2
          have hlk := poolLookup_append_self p a (set_slave ctx 1) hl
          exact ⟨hlk, fun c' => by simp [acquire, hlk]⟩

/-- A fully successful scrape: the handler returns, as the success body,
one rendered line per catalog entry joined in declared order, alongside
the pool produced by the acquire step. -/
theorem metrics_success (fmt32 fmt64 : Nat → String)
    (c : Except String Session)
    (reads : Nat → Nat → Except String (List Nat))
    (pool : List (String × Session)) (host fems_id : String)
    (ctx : Session) (pool' : List (String × Session))
    (hacq : acquire pool host c = .ok (ctx, pool'))
    (hreads : ∀ d ∈ MODBUS_METRICS, ∃ ws,
      reads d.address d.ty.register_count = .ok ws ∧
      ws.length = d.ty.register_count) :
    metrics fmt32 fmt64 c reads pool host fems_id =
      some (.ok (String.join (MODBUS_METRICS.map (fun d =>
        renderLine d.name d.labels fems_id
          (lineValue fmt32 fmt64 reads d)))), pool') := by
  have hloop :=
    scrapeLoop_success fmt32 fmt64 reads fems_id MODBUS_METRICS "" hreads
  rw [reportOf_eq_join] at hloop
  unfold metrics
  rw [hacq, hloop]
  rw [String.empty_append]
  rfl

/-- C1: for every scrape in which the connect and all 32 register reads
succeed, the handler returns the concatenation, in the catalog's declared
order, of exactly one exposition line per descriptor; by `renderLine`,
each line is `name`, the label segment in braces (the descriptor's own
labels first in declared order, then the mandatory `fems_id` label
carrying the request's device label, each rendered as `key = "value"`
and joined by `", "`), a space, the value, and a newline. -/
theorem spec_C1 (fmt32 fmt64 : Nat → String) (c : Except String Session)
    (reads : Nat → Nat → Except String (List Nat))
    (pool : List (String × Session)) (host fems_id : String)
    (ctx : Session) (pool' : List (String × Session))
    (hacq : acquire pool host c = .ok (ctx, pool'))
    (hreads : ∀ d ∈ MODBUS_METRICS, ∃ ws,
      reads d.address d.ty.register_count = .ok ws ∧
      ws.length = d.ty.register_count) :
    metrics fmt32 fmt64 c reads pool host fems_id =
      some (.ok (String.join (MODBUS_METRICS.map (fun d =>
        renderLine d.name d.labels fems_id
          (lineValue fmt32 fmt64 reads d)))), pool') :=
  metrics_success fmt32 fmt64 c reads pool host fems_id ctx pool' hacq hreads

/-- Witness for C1 at a concrete pool, connect outcome and read oracle. -/
theorem spec_C1_witness :
    metrics (fun _ => "F") (fun _ => "D") (.ok ⟨0, 0⟩)
      (fun _ n => .ok (List.replicate n 0)) [] "192.0.2.1:502" "d" =
      some (.ok (String.join (MODBUS_METRICS.map (fun d =>
        renderLine d.name d.labels "d"
          (lineValue (fun _ => "F") (fun _ => "D")
            (fun _ n => .ok (List.replicate n 0)) d)))),
        [("192.0.2.1:502", ⟨0, 1⟩)]) :=
  spec_C1 (fun _ => "F") (fun _ => "D") (.ok ⟨0, 0⟩)
    (fun _ n => .ok (List.replicate n 0)) [] "192.0.2.1:502" "d"
    ⟨0, 1⟩ [("192.0.2.1:502", ⟨0, 1⟩)] rfl
    (fun d _ => ⟨List.replicate d.ty.register_count 0, rfl, by simp⟩)

/-- C2: pool behaviour per request. If the map holds a session for the
address it is returned and the connect outcome is never consulted; if
not, the single connect outcome decides: on success the session is
configured for slave unit 1 and inserted keyed by the address, on
failure the scrape fails with a text naming the address and cause and
the pool is returned unchanged. -/
theorem spec_C2 (p : List (String × Session)) (a : String) :
    (∀ s, poolLookup p a = some s → ∀ c, acquire p a c = .ok (s, p)) ∧
    (poolLookup p a = none → ∀ ctx,
      acquire p a (.ok ctx) =
        .ok (set_slave ctx 1, p ++ [(a, set_slave ctx 1)]) ∧
      (set_slave ctx 1).slave = 1 ∧
      poolLookup (p ++ [(a, set_slave ctx 1)]) a = some (set_slave ctx 1)) ∧
    (poolLookup p a = none →
      ∀ (e : String) (fmt32 fmt64 : Nat → String)
        (reads : Nat → Nat → Except String (List Nat)) (fid : String),
      metrics fmt32 fmt64 (.error e) reads p a fid =
        some (.error ("unable to connect to fems modbus at " ++ a ++ ": " ++ e),
          p)) := by
  refine ⟨fun s hs c => by simp [acquire, hs], fun h ctx => ?_,
    fun h e fmt32 fmt64 reads fid => by simp [metrics, acquire, h]⟩
  exact ⟨by simp [acquire, h], rfl, poolLookup_append_self p a _ h⟩

/-- Witness for C2: a fresh connect inserts, a second request reuses the
cached session for any connect outcome, and a failed connect on an
empty pool inserts nothing. -/
theorem spec_C2_witness :
    acquire [] "192.0.2.9:502" (.ok ⟨5, 0⟩) =
      .ok (⟨5, 1⟩, [("192.0.2.9:502", ⟨5, 1⟩)]) ∧
    (∀ c, acquire [("192.0.2.9:502", ⟨5, 1⟩)] "192.0.2.9:502" c =
      .ok (⟨5, 1⟩, [("192.0.2.9:502", ⟨5, 1⟩)])) ∧
    metrics (fun _ => "") (fun _ => "") (.error "refused")
      (fun _ _ => .error "x") [] "192.0.2.9:502" "d" =
      some (.error "unable to connect to fems modbus at 192.0.2.9:502: refused",
        []) :=
  ⟨((spec_C2 [] "192.0.2.9:502").2.1 rfl ⟨5, 0⟩).1,
   fun c => (spec_C2 [("192.0.2.9:502", ⟨5, 1⟩)] "192.0.2.9:502").1 ⟨5, 1⟩ rfl c,
   (spec_C2 [] "192.0.2.9:502").2.2 rfl "refused" (fun _ => "") (fun _ => "")
     (fun _ _ => .error "x") "d"⟩

theorem u16_be_bytes_pair (b0 b1 : Nat) (h0 : b0 < 256) (h1 : b1 < 256) :
    u16_be_bytes (b0 * 256 + b1) = [b0, b1] := by
  unfold u16_be_bytes
  have e0 : (b0 * 256 + b1) / 256 % 256 = b0 := by omega
  have e1 : (b0 * 256 + b1) % 256 = b1 := by omega
  rw [e0, e1]

theorem mod256_lt (x : Nat) : x % 256 < 256 := Nat.mod_lt _ (by norm_num)

/-- C3: the decoders are (deterministic) functions and invert big-endian
word-by-word encoding: `decode_u16` returns the single word unchanged,
and for every 32-bit or 64-bit IEEE bit pattern, packing its big-endian bytes
into big-endian 16-bit words and decoding yields the pattern back. -/
theorem spec_C3 :
    (∀ w : Nat, decode_u16 [w] = some w) ∧
    (∀ bits : Nat, bits < 2 ^ 32 →
      decode_f32 (bytes_to_words (nat_be_bytes32 bits)) = some bits) ∧
    (∀ bits : Nat, bits < 2 ^ 64 →
      decode_f64 (bytes_to_words (nat_be_bytes64 bits)) = some bits) := by
  refine ⟨fun w => rfl, fun bits h => ?_, fun bits h => ?_⟩
  · simp only [nat_be_bytes32, bytes_to_words]
    unfold decode_f32
    simp only [List.flatMap_cons, List.flatMap_nil,
      u16_be_bytes_pair _ _ (mod256_lt _) (mod256_lt _),
      List.cons_append, List.nil_append, List.append_nil,
      List.length_cons, List.length_nil]
    rw [if_pos trivial]
    simp only [be_bytes_to_nat, List.foldl_cons, List.foldl_nil]
    rw [Option.some.injEq]
    omega
  · simp only [nat_be_bytes64, bytes_to_words]
    unfold decode_f64
    simp only [List.flatMap_cons, List.flatMap_nil,
      u16_be_bytes_pair _ _ (mod256_lt _) (mod256_lt _),
      List.cons_append, List.nil_append, List.append_nil,
      List.length_cons, List.length_nil]
    rw [if_pos trivial]
    simp only [be_bytes_to_nat, List.foldl_cons, List.foldl_nil]
    rw [Option.some.injEq]
    omega

/-- Witness for C3 at concrete word and bit-pattern inputs. -/
theorem spec_C3_witness :
    decode_u16 [3] = some 3 ∧
    decode_f32 (bytes_to_words (nat_be_bytes32 0x41200000)) =
      some 0x41200000 ∧
    decode_f64 (bytes_to_words (nat_be_bytes64 0x4024000000000000)) =
      some 0x4024000000000000 :=
  ⟨spec_C3.1 3, spec_C3.2.1 0x41200000 (by norm_num),
    spec_C3.2.2 0x4024000000000000 (by norm_num)⟩

/-- C4: if the read of the descriptor at position `pre.length` fails
while all earlier reads succeed, the scrape aborts at once and the
result is exactly the string "unable to read modbus input register: "
followed by the cause — the accumulated report is discarded and no
metric line reaches the error text. -/
theorem spec_C4 (fmt32 fmt64 : Nat → String) (c : Except String Session)
    (reads : Nat → Nat → Except String (List Nat))
    (pool : List (String × Session)) (host fems_id : String)
    (ctx : Session) (pool' : List (String × Session))
    (pre post : List MetricDesc) (d : MetricDesc) (e : String)
    (hsplit : MODBUS_METRICS = pre ++ d :: post)
    (hacq : acquire pool host c = .ok (ctx, pool'))
    (hpre : ∀ d' ∈ pre, ∃ ws, reads d'.address d'.ty.register_count = .ok ws ∧
      ws.length = d'.ty.register_count)
    (herr : reads d.address d.ty.register_count = .error e) :
    metrics fmt32 fmt64 c reads pool host fems_id =
      some (.error ("unable to read modbus input register: " ++ e), pool') := by
  have hloop :=
    scrapeLoop_error fmt32 fmt64 reads fems_id d post e herr pre "" hpre
  unfold metrics
  rw [hacq, hsplit, hloop]
  rfl

/-- Witness for C4: a read failure at position 0 of the catalog. -/
theorem spec_C4_witness :
    metrics (fun _ => "") (fun _ => "") (.ok ⟨0, 0⟩)
      (fun _ _ => .error "connection reset") [] "h:502" "d" =
      some (.error "unable to read modbus input register: connection reset",
        [("h:502", ⟨0, 1⟩)]) :=
  spec_C4 (fun _ => "") (fun _ => "") (.ok ⟨0, 0⟩)
    (fun _ _ => .error "connection reset") [] "h:502" "d"
    ⟨0, 1⟩ [("h:502", ⟨0, 1⟩)] [] MODBUS_METRICS.tail
    ⟨"fems_state", [], 222, .U16⟩ "connection reset" rfl rfl
    (fun d' hd' => absurd hd' (List.not_mem_nil d')) rfl

/-- C5 counterexample: the line the code produces for the
`fems_ess_power_watts_total` example is not the claimed
`fems_ess_power_watts_total\x7bfems_id="x"\x7d 10` — the code renders
each label with spaces around the equals sign. -/
theorem spec_C5_counterexample :
    renderLine "fems_ess_power_watts_total" [] "x" "10" ≠
      "fems_ess_power_watts_total\x7bfems_id=\"x\"\x7d 10\n" := by
  decide

/-- C5 amended: for the catalog entry ("fems_ess_power_watts_total",
address 303, Float32) and device label "x", words `0x4120 0x0000`
assemble big-endian to bytes `41 20 00 00`, decode to bit pattern
`0x41200000`, whose IEEE-754 binary32 value is 10, rendered "10", and
the produced line is `fems_ess_power_watts_total\x7bfems_id = "x"\x7d 10`
plus newline (label rendered with spaces around `=`). -/
theorem spec_C5_amended :
    MODBUS_METRICS[3]? =
      some ⟨"fems_ess_power_watts_total", [], 303, .F32⟩ ∧
    ([0x4120, 0x0000] : List Nat).flatMap u16_be_bytes =
      [0x41, 0x20, 0x00, 0x00] ∧
    decode_f32 [0x4120, 0x0000] = some 0x41200000 ∧
    ieee_binary32_val 0x41200000 = some 10 ∧
    format_f32 0x41200000 = "10" ∧
    (∀ fmt64 : Nat → String,
      decodeValue format_f32 fmt64 .F32 [0x4120, 0x0000] = some "10") ∧
    renderLine "fems_ess_power_watts_total" [] "x" "10" =
      "fems_ess_power_watts_total\x7bfems_id = \"x\"\x7d 10\n" :=
  ⟨rfl, rfl, rfl, by decide, rfl, fun fmt64 => rfl, rfl⟩

/-- C6 counterexample: `decode_u16` applied to the two-word sequence
`[5, 6]` — whose length differs from `register_count U16 = 1` — does not
panic; it returns the first word. -/
theorem spec_C6_counterexample :
    ([5, 6] : List Nat).length ≠ ModbusType.U16.register_count ∧
    decode_u16 [5, 6] = some 5 := by
  decide

/-- C6 amended: `decode_f32`/`decode_f64` panic exactly on a word count
other than 2/4, while `decode_u16` panics only on an empty sequence and
otherwise returns the first word even when extra words are present; with
exactly `register_count` words every decoder succeeds, so under the
scrape pipeline's calls — which always pass the words of a successful
read of `register_count` registers — the panic branch is unreachable. -/
theorem spec_C6_amended :
    (∀ data : List Nat, decode_u16 data = none ↔ data = []) ∧
    (∀ data : List Nat, decode_f32 data = none ↔ data.length ≠ 2) ∧
    (∀ data : List Nat, decode_f64 data = none ↔ data.length ≠ 4) ∧
    (∀ (fmt32 fmt64 : Nat → String) (ty : ModbusType) (data : List Nat),
      data.length = ty.register_count →
      ∃ v, decodeValue fmt32 fmt64 ty data = some v) ∧
    (∀ (fmt32 fmt64 : Nat → String) (c : Except String Session)
       (reads : Nat → Nat → Except String (List Nat))
       (pool : List (String × Session)) (host fid : String),
      (∀ a n ws, reads a n = .ok ws → ws.length = n) →
      metrics fmt32 fmt64 c reads pool host fid ≠ none) := by
  refine ⟨fun data => ?_, fun data => ?_, fun data => ?_,
    decodeValue_of_length, ?_⟩
  · cases data <;> simp [decode_u16]
  · rw [decode_f32]
    simp only [flatMap_u16_length]
    constructor
    · intro h
      by_cases h2 : 2 * data.length = 4
      · rw [if_pos h2] at h; exact absurd h (by simp)
      · omega
    · intro h
      rw [if_neg (by omega)]
  · rw [decode_f64]
    simp only [flatMap_u16_length]
    constructor
    · intro h
      by_cases h2 : 2 * data.length = 8
      · rw [if_pos h2] at h; exact absurd h (by simp)
      · omega
    · intro h
      rw [if_neg (by omega)]
  · intro fmt32 fmt64 c reads pool host fid hlen
    unfold metrics
    cases hacq : acquire pool host c with
    | error e => simp
    | ok pr =>
        have hloop := scrapeLoop_ne_none fmt32 fmt64 reads fid hlen
          MODBUS_METRICS ""
        obtain ⟨r, hr⟩ := Option.ne_none_iff_exists'.mp hloop
        simp [hr]

/-- Witness for C6: the pipeline never panics under a length-correct
read oracle. -/
theorem spec_C6_witness :
    metrics (fun _ => "F") (fun _ => "D") (.error "no")
      (fun _ n => .ok (List.replicate n 0)) [] "h:502" "d" ≠ none :=
  spec_C6_amended.2.2.2.2 (fun _ => "F") (fun _ => "D") (.error "no")
    (fun _ n => .ok (List.replicate n 0)) [] "h:502" "d"
    (fun a n ws h => by injection h with h'; rw [← h']; simp)

/-- C7 amended: a scrape that fails with a read error leaves the pool
exactly as the acquire step left it — the session on which the read
failed remains in the pool under its address (no removal, no reconnect)
and a subsequent request for that address reuses it without a new
connect attempt. (The claim's stronger "map unchanged by the scrape" is
false when this same scrape had freshly connected: see the
counterexample.) -/
theorem spec_C7_amended (fmt32 fmt64 : Nat → String)
    (c : Except String Session)
    (reads : Nat → Nat → Except String (List Nat))
    (pool : List (String × Session)) (host fems_id : String)
    (s : Session) (pool₁ : List (String × Session))
    (pre post : List MetricDesc) (d : MetricDesc) (e : String)
    (hacq : acquire pool host c = .ok (s, pool₁))
    (hsplit : MODBUS_METRICS = pre ++ d :: post)
    (hpre : ∀ d' ∈ pre, ∃ ws, reads d'.address d'.ty.register_count = .ok ws ∧
      ws.length = d'.ty.register_count)
    (herr : reads d.address d.ty.register_count = .error e) :
    metrics fmt32 fmt64 c reads pool host fems_id =
      some (.error ("unable to read modbus input register: " ++ e), pool₁) ∧
    poolLookup pool₁ host = some s ∧
    (∀ c', acquire pool₁ host c' = .ok (s, pool₁)) := by
  obtain ⟨hlk, hacq'⟩ := acquire_ok_lookup pool host c s pool₁ hacq
  have hloop :=
    scrapeLoop_error fmt32 fmt64 reads fems_id d post e herr pre "" hpre
  refine ⟨?_, hlk, hacq'⟩
  unfold metrics
  rw [hacq, hsplit, hloop]
  rfl

/-- Witness for C7 on a concrete pool whose read fails at position 0. -/
theorem spec_C7_witness :
    metrics (fun _ => "") (fun _ => "") (.ok ⟨9, 0⟩)
      (fun _ _ => .error "exception response") [("other:502", ⟨1, 1⟩)]
      "198.51.100.7:502" "dev" =
      some (.error "unable to read modbus input register: exception response",
        [("other:502", ⟨1, 1⟩), ("198.51.100.7:502", ⟨9, 1⟩)]) ∧
    poolLookup [("other:502", ⟨1, 1⟩), ("198.51.100.7:502", ⟨9, 1⟩)]
      "198.51.100.7:502" = some ⟨9, 1⟩ ∧
    (∀ c', acquire [("other:502", ⟨1, 1⟩), ("198.51.100.7:502", ⟨9, 1⟩)]
      "198.51.100.7:502" c' =
      .ok (⟨9, 1⟩, [("other:502", ⟨1, 1⟩), ("198.51.100.7:502", ⟨9, 1⟩)])) :=
  spec_C7_amended (fun _ => "") (fun _ => "") (.ok ⟨9, 0⟩)
    (fun _ _ => .error "exception response") [("other:502", ⟨1, 1⟩)]
    "198.51.100.7:502" "dev" ⟨9, 1⟩
    [("other:502", ⟨1, 1⟩), ("198.51.100.7:502", ⟨9, 1⟩)]
    [] MODBUS_METRICS.tail ⟨"fems_state", [], 222, .U16⟩
    "exception response" rfl rfl
    (fun d' hd' => absurd hd' (List.not_mem_nil d')) rfl

/-- C7 counterexample: starting from an empty pool, a scrape whose
connect succeeds and whose first read fails returns a pool holding the
freshly inserted session — the map is not left unchanged by that
scrape. -/
theorem spec_C7_counterexample :
    metrics (fun _ => "") (fun _ => "") (.ok ⟨7, 0⟩)
      (fun _ _ => .error "timed out") [] "203.0.113.5:502" "dev" =
      some (.error "unable to read modbus input register: timed out",
        [("203.0.113.5:502", ⟨7, 1⟩)]) ∧
    [("203.0.113.5:502", (⟨7, 1⟩ : Session))] ≠
      ([] : List (String × Session)) := by
  constructor
  · rfl
  · simp

/-- C9: the catalog's only descriptors named
`fems_consumption_power_watts` with labels `[("phase", "l3")]` are the
three at addresses 409, 411 and 413, and every successful report has at
positions 19, 20 and 21 three lines with identical metric name and
label segment, differing at most in the value. -/
theorem spec_C9 (fmt32 fmt64 : Nat → String) (c : Except String Session)
    (reads : Nat → Nat → Except String (List Nat))
    (pool : List (String × Session)) (host fems_id : String)
    (ctx : Session) (pool' : List (String × Session))
    (hacq : acquire pool host c = .ok (ctx, pool'))
    (hreads : ∀ d ∈ MODBUS_METRICS, ∃ ws,
      reads d.address d.ty.register_count = .ok ws ∧
      ws.length = d.ty.register_count) :
    (MODBUS_METRICS.filter (fun d =>
      d.name == "fems_consumption_power_watts" &&
        d.labels == [("phase", "l3")])).map MetricDesc.address =
      [409, 411, 413] ∧
    metrics fmt32 fmt64 c reads pool host fems_id =
      some (.ok (String.join (MODBUS_METRICS.map (fun d =>
        renderLine d.name d.labels fems_id
          (lineValue fmt32 fmt64 reads d)))), pool') ∧
    ∃ v1 v2 v3,
      (MODBUS_METRICS.map (fun d => renderLine d.name d.labels fems_id
        (lineValue fmt32 fmt64 reads d)))[19]? =
        some (renderLine "fems_consumption_power_watts" [("phase", "l3")]
          fems_id v1) ∧
      (MODBUS_METRICS.map (fun d => renderLine d.name d.labels fems_id
        (lineValue fmt32 fmt64 reads d)))[20]? =
        some (renderLine "fems_consumption_power_watts" [("phase", "l3")]
          fems_id v2) ∧
      (MODBUS_METRICS.map (fun d => renderLine d.name d.labels fems_id
        (lineValue fmt32 fmt64 reads d)))[21]? =
        some (renderLine "fems_consumption_power_watts" [("phase", "l3")]
          fems_id v3) := by
  refine ⟨by decide,
    metrics_success fmt32 fmt64 c reads pool host fems_id ctx pool' hacq hreads,
    lineValue fmt32 fmt64 reads
      ⟨"fems_consumption_power_watts", [("phase", "l3")], 409, .F32⟩,
    lineValue fmt32 fmt64 reads
      ⟨"fems_consumption_power_watts", [("phase", "l3")], 411, .F32⟩,
    lineValue fmt32 fmt64 reads
      ⟨"fems_consumption_power_watts", [("phase", "l3")], 413, .F32⟩,
    ?_, ?_, ?_⟩
  all_goals rw [List.getElem?_map]; rfl

/-- Witness for C9 at a concrete read oracle. -/
theorem spec_C9_witness :
    metrics (fun _ => "G") (fun _ => "H") (.ok ⟨2, 0⟩)
      (fun _ n => .ok (List.replicate n 0)) [] "198.51.100.8:502" "b" =
      some (.ok (String.join (MODBUS_METRICS.map (fun d =>
        renderLine d.name d.labels "b"
          (lineValue (fun _ => "G") (fun _ => "H")
            (fun _ n => .ok (List.replicate n 0)) d)))),
        [("198.51.100.8:502", ⟨2, 1⟩)]) :=
  (spec_C9 (fun _ => "G") (fun _ => "H") (.ok ⟨2, 0⟩)
    (fun _ n => .ok (List.replicate n 0)) [] "198.51.100.8:502" "b"
    ⟨2, 1⟩ [("198.51.100.8:502", ⟨2, 1⟩)] rfl
    (fun d _ => ⟨List.replicate d.ty.register_count 0, rfl, by simp⟩)).2.1

theorem joinSep_last (s x : String) :
    ∀ ys : List String, ∃ pre, joinSep s (ys ++ [x]) = pre ++ x
  | [] => ⟨"", by simp [joinSep, String.empty_append]⟩
  | [y] => ⟨y ++ s, by simp [joinSep, String.append_assoc]⟩
  | y :: z :: ys => by
      obtain ⟨pre, hp⟩ := joinSep_last s x (z :: ys)
      refine ⟨y ++ s ++ pre, ?_⟩
      rw [List.cons_append, List.cons_append]
      rw [joinSep]
      rw [← List.cons_append, hp, String.append_assoc, String.append_assoc,
        String.append_assoc]

theorem renderLabels_last (labels : List (String × String)) (fid : String) :
    ∃ pre, renderLabels (labels ++ [("fems_id", fid)]) =
      pre ++ ("fems_id = \"" ++ fid ++ "\"") := by
  obtain ⟨pre, hp⟩ := joinSep_last ", "
    ((fun lv : String × String => lv.1 ++ " = \"" ++ lv.2 ++ "\"")
      ("fems_id", fid))
    (labels.map (fun lv => lv.1 ++ " = \"" ++ lv.2 ++ "\""))
  refine ⟨pre, ?_⟩
  unfold renderLabels
  rw [List.map_append, List.map_singleton, hp]
  rfl

/-- C10: the `fems_id` label value is spliced into each line verbatim —
the line is literally `... fems_id = "` followed by the device label
itself and `"` — so a device label containing a double quote, backslash
or newline appears unescaped inside the quoted label value. -/
theorem spec_C10 :
    (∀ (name : String) (labels : List (String × String)) (fid value : String),
      ∃ pre, renderLine name labels fid value =
        name ++ "\x7b" ++ (pre ++ ("fems_id = \"" ++ fid ++ "\"")) ++
          "\x7d " ++ value ++ "\n") ∧
    renderLine "m" [] "a\"b" "1" = "m\x7bfems_id = \"a\"b\"\x7d 1\n" ∧
    renderLine "m" [] "a\\b" "1" = "m\x7bfems_id = \"a\\b\"\x7d 1\n" ∧
    renderLine "m" [] "a\nb" "1" = "m\x7bfems_id = \"a\nb\"\x7d 1\n" := by
  refine ⟨fun name labels fid value => ?_, rfl, rfl, rfl⟩
  obtain ⟨pre, hp⟩ := renderLabels_last labels fid
  refine ⟨pre, ?_⟩
  unfold renderLine
  rw [hp]
